import Mathlib

/-!
# Verification of the face-music-recommendation core

Shallow embedding of the algorithmic core of the repository:

* `backend/models/fusion.py` — `EmotionFusion.late_fusion`, the weighted
  late fusion of per-modality emotion probability distributions;
* `backend/spotify_handler.py` — `SpotifyHandler.recommend_by_emotion`
  (mood-criteria catalog matching with fallback) and
  `SpotifyHandler.get_playlist_stats` (aggregates and mood histogram).

Python floats are modelled by `ℚ`.  Python dicts keyed by the canonical
emotions (built and iterated in insertion order) are modelled either by
total functions `Emotion → ℚ` or by association lists in the canonical
order.  The catch-all `except` blocks in the source never let an exception
escape, so both `late_fusion` and the recommendation pool are total Lean
functions with the exceptional branches made explicit.  The final
`filtered_df.sample(n=1)` of the recommender is a uniform random draw, so
the recommender is modelled up to the candidate pool the row is drawn
from: an entry is a possible return value iff it is in that pool.
-/

/-- The canonical emotion labels, in the order of
`EmotionFusion.CANONICAL_EMOTIONS` (fusion.py line 10). -/
inductive Emotion where
  | happy | sad | angry | calm | neutral | excited
deriving DecidableEq, BEq, Repr

/-- `CANONICAL_EMOTIONS` as the ordered list `[happy, sad, angry, calm,
neutral, excited]`. -/
def CANONICAL_EMOTIONS : List Emotion :=
  [.happy, .sad, .angry, .calm, .neutral, .excited]

/-- Position of a label in the canonical order, used to state the
tie-breaking discipline. -/
def emoIdx : Emotion → ℕ
  | .happy => 0 | .sad => 1 | .angry => 2 | .calm => 3 | .neutral => 4 | .excited => 5

/-- The three fusion modalities. -/
inductive Modality where
  | face | speech | text
deriving DecidableEq, BEq, Repr

/-- A per-modality result dict as consumed by `late_fusion`: only the
presence and the value of the `probabilities` key matter
(`face_result and probabilities in face_result`, fusion.py lines 39-52).
A probability vector is a total map over the canonical labels, mirroring
`probs.get(emotion, 0.0)` with every canonical key present.  A Python
`None` or falsy (empty) dict argument is `none` here. -/
structure ModResult where
  probabilities : Option (Emotion → ℚ)

/-- The `weights` argument: a per-modality weight dict in which each key
may be absent; `weights.get(name, default)` reads a key with a default. -/
structure FusionWeights where
  face : Option ℚ
  speech : Option ℚ
  text : Option ℚ

/-- The default weight dict of fusion.py lines 16-20: face 0.4,
speech 0.3, text 0.3. -/
def default_weights : FusionWeights :=
  ⟨some (4/10), some (3/10), some (3/10)⟩

/-- The dict returned by `late_fusion` (fusion.py lines 72-78 and 83-89).
`probabilities` is the fused dict in canonical key order; `weights` is
`dict(zip(available_modalities, normalized_weights))`. -/
structure FusionOutput where
  emotion_fused : Emotion
  confidence : ℚ
  probabilities : List (Emotion × ℚ)
  modalities_used : List Modality
  weights : List (Modality × ℚ)
deriving DecidableEq, Repr

/-- The neutral dict returned by the catch-all `except` branch of
fusion.py lines 83-89: label neutral, confidence 0.5, uniform 1/6
distribution, empty modality and weight lists. -/
def neutralFallback : FusionOutput :=
  { emotion_fused := .neutral
    confidence := 1/2
    probabilities := CANONICAL_EMOTIONS.map (fun e => (e, 1/6))
    modalities_used := []
    weights := [] }

/-- Truthiness test of fusion.py lines 39, 44, 49: the argument is present
and carries a `probabilities` key. -/
def usable : Option ModResult → Bool
  | some m => m.probabilities.isSome
  | none => false

/-- The contribution one modality argument adds to the collection lists of
fusion.py lines 34-52: its name, vector and weight if usable, nothing
otherwise. -/
def contribOf (m : Modality) (r : Option ModResult) (w : ℚ) :
    List (Modality × (Emotion → ℚ) × ℚ) :=
  match r with
  | some res =>
    match res.probabilities with
    | some p => [(m, p, w)]
    | none => []
  | none => []

/-- The collection loop of fusion.py lines 34-52: the used modalities in
fixed face, speech, text order, each with its probability vector and the
weight `weights.get(name, default)`. -/
def collectContribs (face speech text : Option ModResult) (w : FusionWeights) :
    List (Modality × (Emotion → ℚ) × ℚ) :=
  contribOf .face face (w.face.getD (4/10)) ++
  contribOf .speech speech (w.speech.getD (3/10)) ++
  contribOf .text text (w.text.getD (3/10))

/-- `total_weight = sum(modality_weights)` (fusion.py line 58). -/
def totalWeight (contribs : List (Modality × (Emotion → ℚ) × ℚ)) : ℚ :=
  (contribs.map (fun c => c.2.2)).sum

/-- One fused probability (fusion.py lines 59-66): the sum over used
modalities of `probs.get(emotion, 0.0) * (weight / total_weight)`. -/
def fusedVal (contribs : List (Modality × (Emotion → ℚ) × ℚ)) (e : Emotion) : ℚ :=
  (contribs.map (fun c => c.2.1 e * (c.2.2 / totalWeight contribs))).sum

/-- The Python `max(fused_probs, key=fused_probs.get)` over a dict whose
keys iterate in canonical insertion order: start from the first key and
replace the running best only on a strictly greater value, so the first
key attaining the maximum wins. -/
def pyMaxEmotion (p : Emotion → ℚ) : Emotion :=
  [Emotion.sad, .angry, .calm, .neutral, .excited].foldl
    (fun best e => if p best < p e then e else best) Emotion.happy

/-- The successful branch of `late_fusion` (fusion.py lines 57-78) on a
nonempty contribution list with nonzero total weight. -/
def fuseUsable (contribs : List (Modality × (Emotion → ℚ) × ℚ)) : FusionOutput :=
  { emotion_fused := pyMaxEmotion (fusedVal contribs)
    confidence := fusedVal contribs (pyMaxEmotion (fusedVal contribs))
    probabilities := CANONICAL_EMOTIONS.map (fun e => (e, fusedVal contribs e))
    modalities_used := contribs.map (fun c => c.1)
    weights := contribs.map (fun c => (c.1, c.2.2 / totalWeight contribs)) }

/-- `EmotionFusion.late_fusion` (fusion.py lines 22-89).  The body runs
inside `try/except Exception`: with no usable modality the internal
`ValueError` of line 55 is swallowed and the neutral dict returned; a zero
total weight raises `ZeroDivisionError` at `w/total_weight` (line 59),
likewise swallowed.  `weights=None` falls back to the default weights. -/
def late_fusion (face speech text : Option ModResult)
    (weights : Option FusionWeights) : FusionOutput :=
  let contribs := collectContribs face speech text (weights.getD default_weights)
  if contribs.isEmpty then neutralFallback
  else if totalWeight contribs = 0 then neutralFallback
  else fuseUsable contribs

/-!
## Catalog matcher and stats (`backend/spotify_handler.py`)

A catalog snapshot is the cached playlist dataframe, modelled as an
ordered list of rows.  Rows written by `fetch_and_cache_playlist` always
carry numeric `valence` and `energy` (the clamped genre estimate of
`_estimate_features`), so those columns are plain rationals here.
-/

/-- One row of the cached playlist — the columns the core reads
(spotify_handler.py lines 182-198). -/
structure CatalogEntry where
  track_id : String
  title : String
  artist : String
  album : String
  image_url : String
  preview_url : String
  url : String
  duration_ms : ℕ
  valence : ℚ
  energy : ℚ
  tempo : ℚ
deriving DecidableEq, Repr

/-- Inclusive valence and energy ranges for one emotion. -/
structure MoodCriteria where
  valence_lo : ℚ
  valence_hi : ℚ
  energy_lo : ℚ
  energy_hi : ℚ
deriving DecidableEq, Repr

/-- The neutral row of `EMOTION_CRITERIA`. -/
def neutralCriteria : MoodCriteria := ⟨3/10, 7/10, 3/10, 7/10⟩

/-- `SpotifyHandler.EMOTION_CRITERIA` (spotify_handler.py lines 17-24), in
dict insertion order. -/
def EMOTION_CRITERIA : List (String × MoodCriteria) :=
  [("happy",   ⟨6/10, 1, 5/10, 1⟩),
   ("sad",     ⟨0, 4/10, 0, 6/10⟩),
   ("angry",   ⟨0, 5/10, 6/10, 1⟩),
   ("calm",    ⟨4/10, 1, 0, 4/10⟩),
   ("neutral", neutralCriteria),
   ("excited", ⟨5/10, 1, 7/10, 1⟩)]

/-- `self.EMOTION_CRITERIA.get(emotion, self.EMOTION_CRITERIA[neutral])`
(spotify_handler.py line 230): unrecognized labels fall back to the
neutral criteria. -/
def criteriaFor (emotion : String) : MoodCriteria :=
  (EMOTION_CRITERIA.lookup emotion).getD neutralCriteria

/-- The per-feature range filter of spotify_handler.py lines 235-239 and
289-293: `(df[feature] >= min_val) & (df[feature] <= max_val)` for both
valence and energy. -/
def matchesMood (c : MoodCriteria) (t : CatalogEntry) : Bool :=
  (decide (c.valence_lo ≤ t.valence) && decide (t.valence ≤ c.valence_hi)) &&
  (decide (c.energy_lo ≤ t.energy) && decide (t.energy ≤ c.energy_hi))

/-- The snapshot filtered by the criteria for `emotion`
(spotify_handler.py lines 233-239). -/
def moodFiltered (playlist : List CatalogEntry) (emotion : String) :
    List CatalogEntry :=
  playlist.filter (fun t => matchesMood (criteriaFor emotion) t)

/-- The exclusion step of spotify_handler.py lines 242-243: rows whose
`track_id` differs from `current_song_id` — skipped entirely when the id
is falsy (`None` here `none`, or the empty string). -/
def afterExclusion (l : List CatalogEntry) (current_song_id : Option String) :
    List CatalogEntry :=
  match current_song_id with
  | some id => if id = "" then l else l.filter (fun t => t.track_id ≠ id)
  | none => l

/-- `SpotifyHandler.recommend_by_emotion` (spotify_handler.py lines
222-268) up to the final uniform `sample(n=1)`: `none` when the playlist
is missing or empty (the Python function returns `None`), otherwise
`some` of the final candidate list the random row is drawn from.  When
criteria plus exclusion leave nothing, the fallback of line 248 is
`self.playlist_df` — the whole snapshot, with no exclusion re-applied. -/
def recommendPool (playlist : List CatalogEntry) (emotion : String)
    (current_song_id : Option String) : Option (List CatalogEntry) :=
  if playlist.length = 0 then none
  else
    let filtered := afterExclusion (moodFiltered playlist emotion) current_song_id
    some (if filtered.length = 0 then playlist else filtered)

/-- An entry is a possible result of `recommend_by_emotion` iff it belongs
to the candidate pool the uniform `sample(n=1)` draws from. -/
def canRecommend (playlist : List CatalogEntry) (emotion : String)
    (current_song_id : Option String) (t : CatalogEntry) : Prop :=
  ∃ pool, recommendPool playlist emotion current_song_id = some pool ∧ t ∈ pool

/-- The Python `round(x, 2)` on an exact value: two decimals, ties to
even.  (On binary floats an exact tie is rare; no claim depends on the
tie case.) -/
def round2 (x : ℚ) : ℚ :=
  let y := x * 100
  let f : ℤ := ⌊y⌋
  let n : ℤ :=
    if y - f < 1/2 then f
    else if (1:ℚ)/2 < y - f then f + 1
    else if f % 2 = 0 then f else f + 1
  (n : ℚ) / 100

/-- The dict returned by `get_playlist_stats`.  The empty-playlist branch
(spotify_handler.py lines 274-280) omits the `average_tempo` and
`mood_distribution` keys, hence the `Option` fields. -/
structure Stats where
  total_songs : ℕ
  total_duration_hours : ℚ
  average_valence : ℚ
  average_energy : ℚ
  average_tempo : Option ℚ
  mood_distribution : Option (List (String × ℕ))
  cached : Bool
deriving DecidableEq, Repr

/-- `SpotifyHandler.get_playlist_stats` (spotify_handler.py lines
270-304). -/
def get_playlist_stats (playlist : List CatalogEntry) : Stats :=
  if playlist.length = 0 then
    { total_songs := 0
      total_duration_hours := 0
      average_valence := 0
      average_energy := 0
      average_tempo := none
      mood_distribution := none
      cached := false }
  else
    { total_songs := playlist.length
      total_duration_hours :=
        round2 ((playlist.map (fun t => (t.duration_ms : ℚ))).sum / (1000 * 60 * 60))
      average_valence := (playlist.map (fun t => t.valence)).sum / playlist.length
      average_energy := (playlist.map (fun t => t.energy)).sum / playlist.length
      average_tempo := some ((playlist.map (fun t => t.tempo)).sum / playlist.length)
      mood_distribution :=
        some (EMOTION_CRITERIA.map (fun c =>
          (c.1, (playlist.filter (fun t => matchesMood c.2 t)).length)))
      cached := true }

/-!
## Concrete fixtures used by counterexamples and witnesses
-/

/-- Uniform probability vector. -/
def uniformVec : Emotion → ℚ := fun _ => 1/6

/-- Probability vector with all mass on happy. -/
def happyVec : Emotion → ℚ := fun e => if e = .happy then 1 else 0

/-- Probability vector with a tie between happy and sad. -/
def tieVec : Emotion → ℚ
  | .happy => 3/10 | .sad => 3/10
  | .angry => 1/10 | .calm => 1/10 | .neutral => 1/10 | .excited => 1/10

/-- A weights dict giving the face modality weight zero. -/
def zeroFaceWeights : FusionWeights := ⟨some 0, none, none⟩

/-- A low-valence low-energy row that matches no happy criteria. -/
def trackA : CatalogEntry :=
  ⟨"a", "ta", "aa", "ala", "", "", "", 180000, 1/10, 1/10, 120⟩

/-- A second low-valence low-energy row. -/
def trackB : CatalogEntry :=
  ⟨"b", "tb", "ab", "alb", "", "", "", 200000, 2/10, 2/10, 120⟩

/-- A happy-matching row with id h1. -/
def trackH1 : CatalogEntry :=
  ⟨"h1", "t1", "a1", "al1", "", "", "", 210000, 8/10, 8/10, 120⟩

/-- A second happy-matching row with id h2. -/
def trackH2 : CatalogEntry :=
  ⟨"h2", "t2", "a2", "al2", "", "", "", 190000, 7/10, 7/10, 120⟩

/-- A row matching both the happy and the neutral criteria. -/
def trackMid : CatalogEntry :=
  ⟨"m", "tm", "am", "alm", "", "", "", 240000, 65/100, 6/10, 120⟩

/-!
## Basic lemmas about the fusion control flow
-/

/-- A modality failing the truthiness test contributes nothing. -/
lemma contribOf_eq_nil (m : Modality) (r : Option ModResult) (w : ℚ)
    (h : usable r = false) : contribOf m r w = [] := by
  cases r with
  | none => rfl
  | some res =>
    cases hp : res.probabilities with
    | none => simp [contribOf, hp]
    | some p => simp [usable, hp] at h

/-- `late_fusion` on an empty contribution list is the neutral dict. -/
lemma late_fusion_of_nil (face speech text : Option ModResult)
    (weights : Option FusionWeights)
    (h : collectContribs face speech text (weights.getD default_weights) = []) :
    late_fusion face speech text weights = neutralFallback := by
  unfold late_fusion
  simp [h]

/-- `late_fusion` on a zero total weight is the neutral dict. -/
lemma late_fusion_of_zero (face speech text : Option ModResult)
    (weights : Option FusionWeights)
    (h : totalWeight (collectContribs face speech text (weights.getD default_weights)) = 0) :
    late_fusion face speech text weights = neutralFallback := by
  unfold late_fusion
  by_cases hc : (collectContribs face speech text (weights.getD default_weights)).isEmpty <;>
    simp [hc, h]

/-- On a nonempty contribution list with nonzero total weight,
`late_fusion` takes the successful branch. -/
lemma late_fusion_of_pos (face speech text : Option ModResult)
    (weights : Option FusionWeights)
    (h1 : collectContribs face speech text (weights.getD default_weights) ≠ [])
    (h2 : totalWeight (collectContribs face speech text (weights.getD default_weights)) ≠ 0) :
    late_fusion face speech text weights =
      fuseUsable (collectContribs face speech text (weights.getD default_weights)) := by
  unfold late_fusion
  simp [List.isEmpty_iff, h1, h2]

/-- Claim C1 (corrected): when the contribution list is empty — every
supplied vector missing or unusable — `late_fusion` does not surface an
error to its caller: the internal `ValueError` is caught by the catch-all
handler and the function itself returns the neutral fallback dict. -/
theorem claim1_no_usable_is_fallback (face speech text : Option ModResult)
    (weights : Option FusionWeights)
    (hf : usable face = false) (hs : usable speech = false)
    (ht : usable text = false) :
    late_fusion face speech text weights = neutralFallback := by
  apply late_fusion_of_nil
  unfold collectContribs
  rw [contribOf_eq_nil _ _ _ hf, contribOf_eq_nil _ _ _ hs, contribOf_eq_nil _ _ _ ht]
  rfl

/-- Witness for C1 at the all-`None` call. -/
theorem claim1_no_usable_is_fallback_witness :
    late_fusion none none none none = neutralFallback :=
  claim1_no_usable_is_fallback none none none none rfl rfl rfl

/-- Counterexample to C1 as stated: the call with no usable modality does
not fail — it returns a result, and that result is the neutral fallback
(label neutral, confidence 0.5, uniform 1/6, empty lists), substituted by
the fusion function itself rather than by its caller. -/
theorem claim1_counterexample :
    late_fusion none none none none = neutralFallback ∧
    neutralFallback.emotion_fused = Emotion.neutral ∧
    neutralFallback.confidence = 1/2 ∧
    neutralFallback.modalities_used = [] ∧
    neutralFallback.weights = [] :=
  ⟨rfl, rfl, rfl, rfl, rfl⟩

/-- Claim C10 (confirmed): when at least one usable vector is supplied but
every used modality has weight zero, the `ZeroDivisionError` raised at the
weight normalization is intercepted by the catch-all handler and the call
returns the neutral fallback dict — neutral, confidence 0.5, uniform 1/6,
empty modality and weight lists. -/
theorem claim10_zero_weight_is_fallback (face speech text : Option ModResult)
    (weights : Option FusionWeights)
    (hne : collectContribs face speech text (weights.getD default_weights) ≠ [])
    (hz : ∀ c ∈ collectContribs face speech text (weights.getD default_weights),
      c.2.2 = 0) :
    late_fusion face speech text weights = neutralFallback := by
  apply late_fusion_of_zero
  unfold totalWeight
  refine List.sum_eq_zero ?_
  intro x hx
  obtain ⟨c, hc, rfl⟩ := List.mem_map.1 hx
  exact hz c hc

/-- Witness for C10: a usable face vector with caller weight zero. -/
theorem claim10_zero_weight_is_fallback_witness :
    late_fusion (some ⟨some uniformVec⟩) none none (some zeroFaceWeights) =
      neutralFallback := by
  refine claim10_zero_weight_is_fallback _ _ _ _ (by simp [collectContribs, contribOf]) ?_
  intro c hc
  simp [collectContribs, contribOf, zeroFaceWeights] at hc
  simp [hc]

/-- Claim C6 (corrected): `recommend_by_emotion` on an empty snapshot
returns `None` — no catalog entry; but a snapshot that becomes empty only
after excluding the current song does not fail: the fallback re-uses the
whole snapshot, so the call still succeeds with a nonempty pool. -/
theorem claim6_empty_snapshot (playlist : List CatalogEntry) (emotion : String)
    (current_song_id : Option String) :
    (playlist = [] → recommendPool playlist emotion current_song_id = none) ∧
    (playlist ≠ [] → ∃ pool,
      recommendPool playlist emotion current_song_id = some pool ∧ pool ≠ []) := by
  constructor
  · intro h
    subst h
    rfl
  · intro h
    unfold recommendPool
    rw [if_neg (by simpa [List.length_eq_zero] using h)]
    refine ⟨_, rfl, ?_⟩
    split
    · exact h
    · next hlen => simpa [List.length_eq_zero] using hlen

/-- Witness for C6: both branches at concrete snapshots. -/
theorem claim6_empty_snapshot_witness :
    recommendPool [] ("happy") none = none ∧
    (∃ pool, recommendPool [trackH1] ("happy") (some ("h1")) = some pool ∧ pool ≠ []) :=
  ⟨(claim6_empty_snapshot [] ("happy") none).1 rfl,
   (claim6_empty_snapshot [trackH1] ("happy") (some ("h1"))).2 (by simp)⟩

/-- Counterexample to C6 as stated: a one-row snapshot whose only row is
the excluded track does not produce an empty-catalog failure — the
mood-filtered set loses the row to the exclusion, the fallback restores
the whole snapshot, and the call succeeds returning the excluded track. -/
theorem claim6_counterexample :
    recommendPool [trackH1] ("happy") (some ("h1")) = some [trackH1] ∧
    trackH1.track_id = "h1" := by
  refine ⟨?_, rfl⟩
  norm_num [recommendPool, moodFiltered, matchesMood, criteriaFor, EMOTION_CRITERIA,
    neutralCriteria, afterExclusion, trackH1, List.filter, List.lookup]

/-- Claim C7 (confirmed): on a nonempty snapshot in which no row satisfies
the mood criteria for the requested label, the call still succeeds and the
pool it draws from is the entire snapshot — a degraded match, not an
error. -/
theorem claim7_degraded_match (playlist : List CatalogEntry) (emotion : String)
    (current_song_id : Option String)
    (hne : playlist ≠ [])
    (hmiss : moodFiltered playlist emotion = []) :
    recommendPool playlist emotion current_song_id = some playlist := by
  unfold recommendPool
  rw [if_neg (by simpa [List.length_eq_zero] using hne)]
  have hex : afterExclusion (moodFiltered playlist emotion) current_song_id = [] := by
    rw [hmiss]
    cases current_song_id <;> simp [afterExclusion]
  simp [hex]

/-- Witness for C7: a snapshot with one sad row and a happy request. -/
theorem claim7_degraded_match_witness :
    recommendPool [trackB] ("happy") none = some [trackB] :=
  claim7_degraded_match [trackB] ("happy") none (by simp)
    (by norm_num [moodFiltered, matchesMood, criteriaFor, EMOTION_CRITERIA,
      neutralCriteria, trackB, List.filter, List.lookup])

/-- Claim C8 (corrected): on an empty snapshot `get_playlist_stats`
returns zero songs, zero duration, zero average valence and energy and
`cached = false`, but the returned dict omits the `average_tempo` and
`mood_distribution` keys entirely instead of reporting them as zero. -/
theorem claim8_empty_stats :
    get_playlist_stats [] =
      { total_songs := 0
        total_duration_hours := 0
        average_valence := 0
        average_energy := 0
        average_tempo := none
        mood_distribution := none
        cached := false } := rfl

/-- Counterexample to C8 as stated: the empty-snapshot result carries no
`average_tempo` value at all — in particular not the zero the claim
requires — and no `mood_distribution`. -/
theorem claim8_counterexample :
    (get_playlist_stats []).average_tempo = none ∧
    (get_playlist_stats []).mood_distribution = none ∧
    (none : Option ℚ) ≠ some 0 := by
  refine ⟨rfl, rfl, by simp⟩

/-- With a non-falsy id, the exclusion step is the filter on differing
track ids. -/
lemma afterExclusion_some (l : List CatalogEntry) (id : String) (h : id ≠ "") :
    afterExclusion l (some id) = l.filter (fun t => decide (t.track_id ≠ id)) := by
  simp [afterExclusion, h]

/-- Claim C2 (corrected): the excluded track can never be drawn as long as
the mood-criteria candidate set minus the excluded track is nonempty — the
exclusion filter guarantees it.  (The degraded fallback path is exactly
where this breaks; see the counterexample.) -/
theorem claim2_exclusion_respected (playlist : List CatalogEntry)
    (emotion : String) (id : String) (t : CatalogEntry)
    (hid : id ≠ "")
    (hne : afterExclusion (moodFiltered playlist emotion) (some id) ≠ [])
    (hcan : canRecommend playlist emotion (some id) t) :
    t.track_id ≠ id := by
  obtain ⟨pool, hpool, hmem⟩ := hcan
  unfold recommendPool at hpool
  by_cases hp : playlist.length = 0
  · simp [hp] at hpool
  · rw [if_neg hp] at hpool
    simp only [Option.some.injEq] at hpool
    rw [if_neg (by simpa [List.length_eq_zero] using hne)] at hpool
    subst hpool
    rw [afterExclusion_some _ _ hid] at hmem
    simpa using (List.mem_filter.1 hmem).2

/-- Witness for C2: two happy rows, one excluded, the other drawn. -/
theorem claim2_exclusion_respected_witness : trackH2.track_id ≠ "h1" := by
  refine claim2_exclusion_respected [trackH1, trackH2] ("happy") ("h1") trackH2
    (by simp) ?hne ?hcan
  case hne =>
    norm_num [afterExclusion, moodFiltered, matchesMood, criteriaFor,
      EMOTION_CRITERIA, neutralCriteria, trackH1, trackH2, List.filter_cons,
      List.lookup] <;> decide
  case hcan =>
    refine ⟨[trackH2], ?_, by simp⟩
    have hs0 : ¬ ("h1" : String) = "" := by decide
    have hs2 : ¬ ("h2" : String) = "h1" := by decide
    norm_num [recommendPool, afterExclusion, moodFiltered, matchesMood, criteriaFor,
      EMOTION_CRITERIA, neutralCriteria, trackH1, trackH2, List.filter_cons,
      List.lookup, hs0, hs2]

/-- Counterexample to C2 as stated: when the mood criteria match nothing,
the fallback pool is the whole snapshot with no exclusion re-applied, so
the excluded track is drawable even though another entry exists. -/
theorem claim2_counterexample :
    canRecommend [trackA, trackB] ("happy") (some ("a")) trackA ∧
    trackA.track_id = "a" ∧
    trackB ∈ [trackA, trackB] ∧
    trackB.track_id ≠ "a" := by
  refine ⟨⟨[trackA, trackB], ?_, by simp⟩, rfl, by simp, by simp [trackB]⟩
  norm_num [recommendPool, afterExclusion, moodFiltered, matchesMood, criteriaFor,
    EMOTION_CRITERIA, neutralCriteria, trackA, trackB, List.filter_cons,
    List.lookup]

/-- `matchesMood` is the decision of the two inclusive range conditions. -/
lemma matchesMood_eq_decide (c : MoodCriteria) (t : CatalogEntry) :
    matchesMood c t =
      decide ((c.valence_lo ≤ t.valence ∧ t.valence ≤ c.valence_hi) ∧
              (c.energy_lo ≤ t.energy ∧ t.energy ≤ c.energy_hi)) := by
  simp [matchesMood, Bool.decide_and]

/-- Claim C9 (confirmed): on a nonempty snapshot, the mood-distribution
bucket of every criteria row is the count of snapshot rows whose valence
and energy both lie inside that row's inclusive ranges, with each bucket
computed independently over the whole snapshot and no exclusion applied
(a row may therefore be counted in several buckets). -/
theorem claim9_mood_buckets (playlist : List CatalogEntry)
    (hne : playlist ≠ []) (name : String) (crit : MoodCriteria)
    (hmem : (name, crit) ∈ EMOTION_CRITERIA) :
    ((get_playlist_stats playlist).mood_distribution.getD []).lookup name =
      some ((playlist.filter (fun t =>
        decide ((crit.valence_lo ≤ t.valence ∧ t.valence ≤ crit.valence_hi) ∧
                (crit.energy_lo ≤ t.energy ∧ t.energy ≤ crit.energy_hi)))).length) := by
  have hswap : ∀ c : MoodCriteria,
      (playlist.filter (fun t => matchesMood c t)) =
        playlist.filter (fun t =>
          decide ((c.valence_lo ≤ t.valence ∧ t.valence ≤ c.valence_hi) ∧
                  (c.energy_lo ≤ t.energy ∧ t.energy ≤ c.energy_hi))) := by
    intro c
    exact List.filter_congr (fun t _ => matchesMood_eq_decide c t)
  unfold get_playlist_stats
  rw [if_neg (by simpa [List.length_eq_zero] using hne)]
  simp only [Option.getD_some]
  simp only [EMOTION_CRITERIA, List.mem_cons, List.mem_singleton,
    Prod.mk.injEq, List.not_mem_nil, or_false] at hmem
  rcases hmem with ⟨rfl, rfl⟩ | ⟨rfl, rfl⟩ | ⟨rfl, rfl⟩ | ⟨rfl, rfl⟩ |
    ⟨rfl, rfl⟩ | ⟨rfl, rfl⟩ <;>
    simp [EMOTION_CRITERIA, List.lookup, hswap]

/-- Witness for C9: a one-row snapshot whose row falls in both the happy
and the neutral buckets, so the bucket sum 2 exceeds the track count 1. -/
theorem claim9_mood_buckets_witness :
    ((get_playlist_stats [trackMid]).mood_distribution.getD []).lookup ("happy")
        = some 1 ∧
    ((get_playlist_stats [trackMid]).mood_distribution.getD []).lookup ("neutral")
        = some 1 := by
  constructor
  · rw [claim9_mood_buckets [trackMid] (by simp) ("happy") ⟨6/10, 1, 5/10, 1⟩
      (by simp [EMOTION_CRITERIA])]
    norm_num [List.filter_cons, trackMid]
  · rw [claim9_mood_buckets [trackMid] (by simp) ("neutral") neutralCriteria
      (by simp [EMOTION_CRITERIA])]
    norm_num [List.filter_cons, trackMid, neutralCriteria]

/-!
## Algebra of the fused distribution
-/

/-- Exchanging the two summations of the fused-vector total. -/
lemma list_sum_swap {α β : Type} (l1 : List α) (l2 : List β) (f : α → β → ℚ) :
    (l1.map (fun a => (l2.map (f a)).sum)).sum
      = (l2.map (fun b => (l1.map (fun a => f a b)).sum)).sum := by
  induction l1 with
  | nil => simp
  | cons a t ih => simp [List.sum_map_add, ih]

/-- The normalized weights of a contribution list with nonzero total sum
to one. -/
lemma normWeights_sum (C : List (Modality × (Emotion → ℚ) × ℚ))
    (htw : totalWeight C ≠ 0) :
    (C.map (fun c => c.2.2 / totalWeight C)).sum = 1 := by
  have hrw : (fun c : Modality × (Emotion → ℚ) × ℚ => c.2.2 / totalWeight C)
      = (fun c : Modality × (Emotion → ℚ) × ℚ => c.2.2 * (totalWeight C)⁻¹) := by
    funext c
    rw [div_eq_mul_inv]
  rw [hrw, List.sum_map_mul_right]
  exact mul_inv_cancel₀ htw

/-- Claim C5 (confirmed): with exactly one usable contribution of positive
weight, the fused distribution is that contribution unchanged and the
reported weight dict maps that modality to 1. -/
theorem claim5_single_contribution (face speech text : Option ModResult)
    (weights : Option FusionWeights) (m : Modality) (p : Emotion → ℚ) (wgt : ℚ)
    (hc : collectContribs face speech text (weights.getD default_weights) = [(m, p, wgt)])
    (hw : 0 < wgt) :
    (late_fusion face speech text weights).probabilities
        = CANONICAL_EMOTIONS.map (fun e => (e, p e)) ∧
    (late_fusion face speech text weights).weights = [(m, 1)] := by
  have hne : collectContribs face speech text (weights.getD default_weights) ≠ [] := by
    rw [hc]
    simp
  have htw : totalWeight (collectContribs face speech text (weights.getD default_weights)) ≠ 0 := by
    rw [hc]
    simpa [totalWeight] using ne_of_gt hw
  rw [late_fusion_of_pos face speech text weights hne htw, hc]
  constructor
  · unfold fuseUsable
    simp [fusedVal, totalWeight, div_self (ne_of_gt hw)]
  · unfold fuseUsable
    simp [totalWeight, div_self (ne_of_gt hw)]

/-- Witness for C5: a single face vector concentrated on happy, default
weights. -/
theorem claim5_single_contribution_witness :
    (late_fusion (some ⟨some happyVec⟩) none none none).probabilities
        = CANONICAL_EMOTIONS.map (fun e => (e, happyVec e)) ∧
    (late_fusion (some ⟨some happyVec⟩) none none none).weights
        = [(Modality.face, 1)] :=
  claim5_single_contribution (some ⟨some happyVec⟩) none none none
    Modality.face happyVec (4/10) rfl (by norm_num)

/-- Claim C4 (corrected): with at least one usable contribution, nonzero
total weight over the used modalities, and vectors each summing to one,
the applied weights are the input weights normalized by their total — they
sum to one — and the fused probability vector sums to one exactly. -/
theorem claim4_fused_sums_to_one (face speech text : Option ModResult)
    (weights : Option FusionWeights)
    (hne : collectContribs face speech text (weights.getD default_weights) ≠ [])
    (htw : totalWeight (collectContribs face speech text (weights.getD default_weights)) ≠ 0)
    (hsum : ∀ c ∈ collectContribs face speech text (weights.getD default_weights),
      (CANONICAL_EMOTIONS.map c.2.1).sum = 1) :
    (late_fusion face speech text weights).weights
        = (collectContribs face speech text (weights.getD default_weights)).map
            (fun c => (c.1, c.2.2 /
              totalWeight (collectContribs face speech text (weights.getD default_weights)))) ∧
    (((late_fusion face speech text weights).weights).map Prod.snd).sum = 1 ∧
    (((late_fusion face speech text weights).probabilities).map Prod.snd).sum = 1 := by
  rw [late_fusion_of_pos face speech text weights hne htw]
  simp only [fuseUsable]
  refine ⟨trivial, ?_, ?_⟩
  · rw [List.map_map]
    exact normWeights_sum _ htw
  · rw [List.map_map]
    have hcomp : (Prod.snd ∘ fun e => (e, fusedVal
        (collectContribs face speech text (weights.getD default_weights)) e))
        = fusedVal (collectContribs face speech text (weights.getD default_weights)) := rfl
    rw [hcomp]
    unfold fusedVal
    rw [list_sum_swap]
    have hinner : ∀ c ∈ collectContribs face speech text (weights.getD default_weights),
        (CANONICAL_EMOTIONS.map (fun e => c.2.1 e * (c.2.2 /
          totalWeight (collectContribs face speech text (weights.getD default_weights))))).sum
        = c.2.2 / totalWeight (collectContribs face speech text (weights.getD default_weights)) := by
      intro c hcm
      rw [List.sum_map_mul_right, hsum c hcm, one_mul]
    rw [List.map_congr_left hinner]
    exact normWeights_sum _ htw

/-- Witness for C4: the happy-concentrated face vector with default
weights; its normalized weight is 1 and the fused vector sums to 1. -/
theorem claim4_fused_sums_to_one_witness :
    (late_fusion (some ⟨some happyVec⟩) none none none).weights
        = (collectContribs (some ⟨some happyVec⟩) none none
            ((none : Option FusionWeights).getD default_weights)).map
            (fun c => (c.1, c.2.2 /
              totalWeight (collectContribs (some ⟨some happyVec⟩) none none
                ((none : Option FusionWeights).getD default_weights)))) ∧
    (((late_fusion (some ⟨some happyVec⟩) none none none).weights).map Prod.snd).sum = 1 ∧
    (((late_fusion (some ⟨some happyVec⟩) none none none).probabilities).map Prod.snd).sum = 1 :=
  claim4_fused_sums_to_one (some ⟨some happyVec⟩) none none none
    (by simp [collectContribs, contribOf])
    (by norm_num [collectContribs, contribOf, totalWeight, default_weights])
    (by
      intro c hcm
      simp only [collectContribs, contribOf, default_weights, List.append_nil,
        List.nil_append, List.mem_singleton] at hcm
      subst hcm
      have h : CANONICAL_EMOTIONS.map happyVec = [1, 0, 0, 0, 0, 0] := rfl
      rw [h]
      norm_num)

/-- Counterexample to C4 as stated: a single usable vector summing to one
but carrying caller weight zero hits the zero-division fallback — the
returned weight dict is empty (its values sum to 0, not 1) and the fused
value at happy is 1/6, not the weighted average 1. -/
theorem claim4_counterexample :
    (CANONICAL_EMOTIONS.map happyVec).sum = 1 ∧
    usable (some ⟨some happyVec⟩) = true ∧
    (late_fusion (some ⟨some happyVec⟩) none none (some zeroFaceWeights)).weights = [] ∧
    (((late_fusion (some ⟨some happyVec⟩) none none
        (some zeroFaceWeights)).weights).map Prod.snd).sum ≠ 1 ∧
    ((late_fusion (some ⟨some happyVec⟩) none none
        (some zeroFaceWeights)).probabilities).lookup Emotion.happy ≠ some 1 := by
  have hfb : late_fusion (some ⟨some happyVec⟩) none none (some zeroFaceWeights)
      = neutralFallback := by
    unfold late_fusion
    norm_num [collectContribs, contribOf, zeroFaceWeights, totalWeight]
  refine ⟨?_, rfl, ?_, ?_, ?_⟩
  · have h : CANONICAL_EMOTIONS.map happyVec = [1, 0, 0, 0, 0, 0] := rfl
    rw [h]
    norm_num
  · rw [hfb]
    rfl
  · rw [hfb]
    norm_num [neutralFallback]
  · rw [hfb]
    have h2 : (neutralFallback.probabilities).lookup Emotion.happy = some (1/6) := rfl
    rw [h2]
    norm_num

/-!
## Deterministic tie-breaking of the top label
-/

set_option maxHeartbeats 1000000 in
/-- The Python `max` over the canonical-order dict returns a label of
maximal value, and on ties the one earliest in the canonical order. -/
lemma pyMaxEmotion_firstMax (p : Emotion → ℚ) :
    ∀ e ∈ CANONICAL_EMOTIONS,
      p e ≤ p (pyMaxEmotion p) ∧
      (p e = p (pyMaxEmotion p) → emoIdx (pyMaxEmotion p) ≤ emoIdx e) := by
  unfold pyMaxEmotion
  simp only [List.foldl_cons, List.foldl_nil]
  split_ifs <;>
    (intro e he; fin_cases he <;>
      exact ⟨by linarith, fun h => by first | decide | (exfalso; linarith)⟩)

/-- Claim C3 (corrected): on the successful branch — at least one usable
contribution and nonzero total weight — every entry of the returned
distribution is bounded by the returned confidence, and any entry
attaining it lies no earlier in the canonical order than the returned top
label: ties go to the earliest of `{happy, sad, angry, calm, neutral,
excited}`. -/
theorem claim3_tie_break (face speech text : Option ModResult)
    (weights : Option FusionWeights)
    (hne : collectContribs face speech text (weights.getD default_weights) ≠ [])
    (htw : totalWeight (collectContribs face speech text (weights.getD default_weights)) ≠ 0)
    (pr : Emotion × ℚ)
    (hpr : pr ∈ (late_fusion face speech text weights).probabilities) :
    pr.2 ≤ (late_fusion face speech text weights).confidence ∧
    (pr.2 = (late_fusion face speech text weights).confidence →
      emoIdx (late_fusion face speech text weights).emotion_fused ≤ emoIdx pr.1) := by
  rw [late_fusion_of_pos face speech text weights hne htw] at hpr ⊢
  simp only [fuseUsable] at hpr ⊢
  obtain ⟨e, he, rfl⟩ := List.mem_map.1 hpr
  exact pyMaxEmotion_firstMax
    (fusedVal (collectContribs face speech text (weights.getD default_weights))) e he

/-- Witness for C3: a face vector with happy and sad tied at 0.3; the sad
entry equals the confidence only if sad were maximal, and the returned top
label is no later than sad in canonical order. -/
theorem claim3_tie_break_witness :
    ((Emotion.sad, (3:ℚ)/10).2
        ≤ (late_fusion (some ⟨some tieVec⟩) none none none).confidence) ∧
    ((Emotion.sad, (3:ℚ)/10).2
        = (late_fusion (some ⟨some tieVec⟩) none none none).confidence →
      emoIdx (late_fusion (some ⟨some tieVec⟩) none none none).emotion_fused
        ≤ emoIdx (Emotion.sad, (3:ℚ)/10).1) := by
  have h1 : collectContribs (some ⟨some tieVec⟩) none none
      ((none : Option FusionWeights).getD default_weights) ≠ [] := by
    simp [collectContribs, contribOf]
  have h2 : totalWeight (collectContribs (some ⟨some tieVec⟩) none none
      ((none : Option FusionWeights).getD default_weights)) ≠ 0 := by
    norm_num [collectContribs, contribOf, totalWeight, default_weights]
  have hval : fusedVal (collectContribs (some ⟨some tieVec⟩) none none
      default_weights) Emotion.sad = 3/10 := by
    norm_num [fusedVal, totalWeight, collectContribs, contribOf, default_weights, tieVec]
  have hpr : (Emotion.sad, (3:ℚ)/10)
      ∈ (late_fusion (some ⟨some tieVec⟩) none none none).probabilities := by
    rw [late_fusion_of_pos (some ⟨some tieVec⟩) none none none h1 h2]
    simp only [fuseUsable, CANONICAL_EMOTIONS, List.map_cons, List.map_nil]
    simp [hval]
  exact claim3_tie_break (some ⟨some tieVec⟩) none none none h1 h2
    (Emotion.sad, 3/10) hpr

/-- Counterexample to C3 as stated: with a usable uniform vector but
caller weight zero, the fallback reports the uniform distribution — all
six labels share the maximum — yet the returned label is neutral, not the
canonically earliest label happy. -/
theorem claim3_counterexample :
    usable (some ⟨some uniformVec⟩) = true ∧
    (late_fusion (some ⟨some uniformVec⟩) none none
        (some zeroFaceWeights)).probabilities
      = CANONICAL_EMOTIONS.map (fun e => (e, 1/6)) ∧
    (late_fusion (some ⟨some uniformVec⟩) none none
        (some zeroFaceWeights)).emotion_fused = Emotion.neutral ∧
    emoIdx Emotion.happy < emoIdx Emotion.neutral := by
  have hfb : late_fusion (some ⟨some uniformVec⟩) none none (some zeroFaceWeights)
      = neutralFallback :=
    late_fusion_of_zero _ _ _ _
      (by norm_num [collectContribs, contribOf, zeroFaceWeights, totalWeight])
  refine ⟨rfl, ?_, ?_, by decide⟩
  · rw [hfb]
    rfl
  · rw [hfb]
    rfl
